import Mathlib

/-!
# SmartSchedular — verification of the scheduling engine and its client

Shallow embedding of the SmartSchedular repository's scheduling subsystem.
The repository ships the browser client (`static/app.js`, `static/index.html`)
and the project metadata; the Flask backend (`app.py`, holding the scheduling
engine proper) is not part of the source tree available here, so the engine
components (AvailabilityCalendar, TaskPrioritizer, SlotFinder,
SuggestionRanker, ApprovalCommitter) are modelled from the specification,
while every client-side function is translated directly from `static/app.js`.

Time is measured in integer minutes since a reference epoch that falls on a
Monday at 00:00 local time.  Hence `09:00` of day `d` is `1440*d + 540`,
`17:00` is `1440*d + 1020`, and the weekday of a timestamp `t` is
`(t / 1440) % 7` with `0 = Monday`, …, `6 = Sunday` (Euclidean division, so
the encoding also behaves on negative timestamps).
-/

namespace SmartSchedular

/-- Task status, spec §3: `status ∈ {NotStarted, InProgress, OnHold, Completed}`. -/
inductive Status where
  | NotStarted
  | InProgress
  | OnHold
  | Completed
deriving DecidableEq

/-- A task, spec §3. `priority ∈ {1,2,3}`, `estimated_minutes` positive,
`dependencies` a set of task ids. -/
structure Task where
  id : Nat
  title : String
  priority : Nat
  estimated_minutes : Int
  status : Status
  project_id : Option Nat
  dependencies : List Nat
deriving DecidableEq

/-- A project, spec §3: `id`, `priority ∈ {1,2,3}`; the client additionally
reads `name` and `color` fields off the loaded project objects. -/
structure Project where
  id : Nat
  name : String
  priority : Nat
  color : String
deriving DecidableEq

/-- A committed calendar interval, spec §3: half-open `[start, end)`,
optionally linked to a task.  The JavaScript field `end` is a Lean keyword,
so it is embedded as `end_`. -/
structure CommittedInterval where
  id : Nat
  task_id : Option Nat
  start : Int
  end_ : Int
deriving DecidableEq

/-- A scheduling suggestion, spec §3 and §6 (Suggest output). -/
structure Suggestion where
  task_id : Nat
  task_title : String
  suggested_start : Int
  duration_minutes : Int
  priority_score : Nat
  reason : String
deriving DecidableEq

/-- The read-only snapshot handed to the engine per invocation, spec §3
(lifecycle paragraph) and §6 (collaborator interfaces). -/
structure Snapshot where
  tasks : List Task
  projects : List Project
  intervals : List CommittedInterval
deriving DecidableEq

/-- BusinessCalendar configuration, spec §3: weekday set Mon–Fri and the
09:00–17:00 daily window are fixed below; `buffer` (minutes), the scan
horizon (days) and the per-task candidate count `k` are configurable. -/
structure Config where
  buffer : Int
  horizonDays : Nat
  k : Nat
deriving DecidableEq

/-! ## Time helpers (minutes since a Monday-00:00 epoch) -/

/-- Minute of the day of timestamp `t` (0 ≤ _ < 1440). -/
def timeOfDay (t : Int) : Int := t.emod 1440

/-- Weekday of timestamp `t`: 0 = Monday, …, 6 = Sunday. -/
def weekday (t : Int) : Int := (t.ediv 1440).emod 7

/-- Midnight of the day containing `t`. -/
def dayStart (t : Int) : Int := t - t.emod 1440

/-! ## AvailabilityCalendar (modelled from the spec) -/

/-- Modelled from the spec: the backend AvailabilityCalendar component
(spec §4.1) is not in the source tree, only its behaviour is specified.
`free = true` iff the candidate `[s, e)` expanded by `buffer` on both sides
overlaps no CommittedInterval, with half-open overlap test
`a.start < b.end && b.start < a.end`. -/
def isFree (ivs : List CommittedInterval) (buffer s e : Int) : Bool :=
  ivs.all fun iv =>
    !(decide (s - buffer < iv.end_) && decide (iv.start < e + buffer))

theorem isFree_iff (ivs : List CommittedInterval) (buffer s e : Int) :
    isFree ivs buffer s e = true ↔
      ∀ iv ∈ ivs, ¬(s - buffer < iv.end_ ∧ iv.start < e + buffer) := by
  simp only [isFree, List.all_eq_true, Bool.not_eq_true', Bool.and_eq_false_iff,
    decide_eq_false_iff_not, not_lt, not_and]
  constructor
  · intro h iv hiv hlt
    rcases h iv hiv with h' | h'
    · exact absurd hlt (not_lt.mpr h')
    · exact h'
  · intro h iv hiv
    by_cases hlt : s - buffer < iv.end_
    · exact Or.inr (h iv hiv hlt)
    · exact Or.inl (not_lt.mp hlt)

/-! ## SlotFinder (modelled from the spec) -/

/-- Modelled from the spec: 09:00 of the next business day strictly after the
day of `t` (SlotFinder step 2, "cursor jumps to 09:00 of the next weekday").
Fuel-bounded day scan; at most two non-business days (Sat, Sun) occur in a
row, so fuel 7 always suffices. -/
def nextBusinessDayStart : Nat → Int → Int
  | 0, t => dayStart t + 1440 + 540
  | f + 1, t =>
      let t' := dayStart t + 1440
      if weekday t' < 5 then t' + 540 else nextBusinessDayStart f t'

/-- Modelled from the spec: `start_of_current_or_next_business_day` for the
initial cursor (SlotFinder step 1). -/
def startOfCurrentOrNextBusinessDay (now : Int) : Int :=
  if weekday now < 5 ∧ timeOfDay now < 1020 then dayStart now + 540
  else nextBusinessDayStart 7 now

/-- Modelled from the spec: SlotFinder step 2 — advance the cursor by a fixed
15-minute increment while inside a business day; once the day's window is
exhausted, jump to 09:00 of the next business day. -/
def nextCursor (c : Int) : Int :=
  let c' := c + 15
  if weekday c' < 5 ∧ 540 ≤ timeOfDay c' ∧ timeOfDay c' < 1020 then c'
  else nextBusinessDayStart 7 c'

/-- Modelled from the spec: the acceptance test of SlotFinder step 3 combined
with §4.1's hard lower bound on `now` — the candidate `[c, c + dur)` must not
start before `now`, must lie entirely inside the same day's 09:00–17:00
business window on a weekday, and must be free per AvailabilityCalendar with
the configured buffer. -/
def candidateOK (ivs : List CommittedInterval) (buffer now dur c : Int) : Bool :=
  decide (now ≤ c) && decide (weekday c < 5) && decide (540 ≤ timeOfDay c) &&
    decide (timeOfDay c + dur ≤ 1020) && isFree ivs buffer c (c + dur)

/-- Modelled from the spec: SlotFinder's bounded horizon scan (§4.3 steps 2–4,
§5 cancellation).  `fuel` bounds the number of cursor steps, `k` the number of
candidates still to collect; an accepted slot is followed by a cursor skip
past the slot plus buffer. -/
def findSlots (ivs : List CommittedInterval) (buffer now dur : Int) :
    Nat → Nat → Int → List Int
  | 0, _, _ => []
  | _ + 1, 0, _ => []
  | fuel + 1, k + 1, c =>
      if candidateOK ivs buffer now dur c then
        c :: findSlots ivs buffer now dur fuel k (c + dur + buffer)
      else
        findSlots ivs buffer now dur fuel (k + 1) (nextCursor c)

/-- Every slot returned by `findSlots` passes the acceptance test. -/
theorem candidateOK_of_mem_findSlots {ivs : List CommittedInterval}
    {buffer now dur : Int} :
    ∀ {fuel k : Nat} {c s : Int}, s ∈ findSlots ivs buffer now dur fuel k c →
      candidateOK ivs buffer now dur s = true := by
  intro fuel
  induction fuel with
  | zero => intro k c s h; simp [findSlots] at h
  | succ f ih =>
    intro k c s h
    match k with
    | 0 => simp [findSlots] at h
    | k + 1 =>
      rw [findSlots] at h
      by_cases hc : candidateOK ivs buffer now dur c = true
      · rw [if_pos hc] at h
        rcases List.mem_cons.mp h with rfl | h'
        · exact hc
        · exact ih h'
      · rw [if_neg hc] at h
        exact ih h

/-! ## TaskPrioritizer (modelled from the spec) -/

/-- Modelled from the spec: §4.2 — tasks with no project, or referencing a
project absent from the snapshot, use the neutral project priority 2. -/
def projectPriority (projects : List Project) (pid : Option Nat) : Nat :=
  match pid with
  | none => 2
  | some p =>
      match projects.find? fun pr => pr.id == p with
      | some pr => pr.priority
      | none => 2

/-- Modelled from the spec: §4.2's recommended ordering key
`score = project_priority * 10 + task_priority` (lower = more urgent). -/
def score (snap : Snapshot) (t : Task) : Nat :=
  projectPriority snap.projects t.project_id * 10 + t.priority

/-- Modelled from the spec: §4.2 eligibility — status in
{NotStarted, OnHold} and every dependency resolved to a task whose status is
Completed (a dangling dependency id is not satisfied). -/
def eligible (snap : Snapshot) (t : Task) : Bool :=
  (decide (t.status = Status.NotStarted) || decide (t.status = Status.OnHold)) &&
    t.dependencies.all fun d =>
      match snap.tasks.find? fun td => td.id == d with
      | some td => decide (td.status = Status.Completed)
      | none => false

/-! ## Sorting (insertion sort, used by TaskPrioritizer and SuggestionRanker) -/

/-- Insert `a` into `l` in front of the first element not below it. -/
def insertSorted (le : α → α → Bool) (a : α) : List α → List α
  | [] => [a]
  | b :: l => if le a b then a :: b :: l else b :: insertSorted le a l

/-- Deterministic stable insertion sort. -/
def sortByKey (le : α → α → Bool) : List α → List α
  | [] => []
  | a :: l => insertSorted le a (sortByKey le l)

theorem mem_insertSorted {le : α → α → Bool} {a x : α} :
    ∀ {l : List α}, x ∈ insertSorted le a l → x = a ∨ x ∈ l := by
  intro l
  induction l with
  | nil => intro h; simpa [insertSorted] using h
  | cons b l ih =>
    intro h
    rw [insertSorted] at h
    by_cases hle : le a b = true
    · rw [if_pos hle] at h
      rcases List.mem_cons.mp h with rfl | h'
      · exact Or.inl rfl
      · exact Or.inr h'
    · rw [if_neg hle] at h
      rcases List.mem_cons.mp h with rfl | h'
      · exact Or.inr (List.mem_cons_self _ _)
      · rcases ih h' with h'' | h''
        · exact Or.inl h''
        · exact Or.inr (List.mem_cons_of_mem _ h'')

theorem mem_of_mem_sortByKey {le : α → α → Bool} {x : α} :
    ∀ {l : List α}, x ∈ sortByKey le l → x ∈ l := by
  intro l
  induction l with
  | nil => intro h; simp [sortByKey] at h
  | cons a l ih =>
    intro h
    rw [sortByKey] at h
    rcases mem_insertSorted h with rfl | h'
    · exact List.mem_cons_self _ _
    · exact List.mem_cons_of_mem _ (ih h')

/-! ## SuggestionRanker and the Suggest operation (modelled from the spec) -/

/-- Modelled from the spec: §4.2 output ordering — ascending score. -/
def taskLe (snap : Snapshot) (a b : Task) : Bool :=
  decide (score snap a ≤ score snap b)

/-- Modelled from the spec: §4.4 ordering — primary key priority score
ascending, secondary key suggested start ascending. -/
def sugLe (a b : Suggestion) : Bool :=
  decide (a.priority_score < b.priority_score) ||
    (decide (a.priority_score = b.priority_score) &&
      decide (a.suggested_start ≤ b.suggested_start))

/-- Modelled from the spec: §4.4's deterministically derived reason text. -/
def mkReason (snap : Snapshot) (t : Task) : String :=
  "Task priority " ++ toString t.priority ++ " in project priority " ++
    toString (projectPriority snap.projects t.project_id) ++ "; first open " ++
    toString t.estimated_minutes ++
    "-minute slot honoring business hours and existing commitments."

/-- Modelled from the spec: the number of 15-minute cursor steps in the scan
horizon (1440 / 15 = 96 per day). -/
def horizonFuel (cfg : Config) : Nat := cfg.horizonDays * 96

/-- Modelled from the spec: SlotFinder step 1's initial cursor
`max(now, start_of_current_or_next_business_day)`. -/
def startCursor (now : Int) : Int :=
  max now (startOfCurrentOrNextBusinessDay now)

/-- Modelled from the spec: per-task suggestion generation — SlotFinder's
candidate slots for the task's estimated duration, each packaged as a
Suggestion (§4.3, §4.4, §6). -/
def taskSuggestions (cfg : Config) (snap : Snapshot) (now : Int) (t : Task) :
    List Suggestion :=
  (findSlots snap.intervals cfg.buffer now t.estimated_minutes
      (horizonFuel cfg) cfg.k (startCursor now)).map fun c =>
    { task_id := t.id
      task_title := t.title
      suggested_start := c
      duration_minutes := t.estimated_minutes
      priority_score := score snap t
      reason := mkReason snap t }

/-- Modelled from the spec: the Suggest operation (§6) — the backend
`/api/schedule/suggest` handler is not under the available source tree.
TaskPrioritizer filters and orders eligible tasks, SlotFinder produces
per-task slots, SuggestionRanker sorts the merged list on the two-key
ordering of §4.4. -/
def suggest (cfg : Config) (snap : Snapshot) (now : Int) : List Suggestion :=
  sortByKey sugLe
    (((sortByKey (taskLe snap) (snap.tasks.filter (eligible snap))).map
        (taskSuggestions cfg snap now)).flatten)

/-- Any returned suggestion arises from an eligible snapshot task via an
accepted SlotFinder slot. -/
theorem exists_task_of_mem_suggest {cfg : Config} {snap : Snapshot} {now : Int}
    {sug : Suggestion} (h : sug ∈ suggest cfg snap now) :
    ∃ t ∈ snap.tasks, eligible snap t = true ∧ sug.task_id = t.id ∧
      sug.duration_minutes = t.estimated_minutes ∧
      candidateOK snap.intervals cfg.buffer now t.estimated_minutes
        sug.suggested_start = true := by
  have h1 := mem_of_mem_sortByKey h
  rcases List.mem_flatten.mp h1 with ⟨l, hl, hsug⟩
  rcases List.mem_map.mp hl with ⟨t, ht, rfl⟩
  have ht' := mem_of_mem_sortByKey ht
  have htmem : t ∈ snap.tasks := List.mem_of_mem_filter ht'
  have htel : eligible snap t = true := List.of_mem_filter ht'
  rcases List.mem_map.mp hsug with ⟨c, hc, rfl⟩
  exact ⟨t, htmem, htel, rfl, rfl, candidateOK_of_mem_findSlots hc⟩

/-! ## Claim theorems about Suggest -/

/-- C1: Every suggestion returned by a Suggest call, with its interval
`[suggested_start, suggested_start + duration)` expanded by `buffer_minutes`
on both sides, overlaps no CommittedInterval of the input snapshot, where two
half-open intervals overlap iff `a.start < b.end && b.start < a.end`. -/
theorem suggest_buffered_no_overlap {cfg : Config} {snap : Snapshot}
    {now : Int} {sug : Suggestion} (h : sug ∈ suggest cfg snap now) :
    ∀ iv ∈ snap.intervals,
      ¬(sug.suggested_start - cfg.buffer < iv.end_ ∧
        iv.start < sug.suggested_start + sug.duration_minutes + cfg.buffer) := by
  rcases exists_task_of_mem_suggest h with ⟨t, _, _, _, hdur, hok⟩
  simp only [candidateOK, Bool.and_eq_true, decide_eq_true_eq] at hok
  have hfree := (isFree_iff _ _ _ _).mp hok.2
  intro iv hiv
  have := hfree iv hiv
  rw [hdur]
  intro hcontra
  exact this ⟨hcontra.1, by linarith [hcontra.2]⟩

/-- Witness for C1 at the spec §8 scenario (buffer 15, now Monday 08:00, one
commitment Monday 09:00–10:00, task of 30 minutes): the returned slot is
Monday 10:15 (minute 615) and its buffered interval avoids the commitment. -/
theorem suggest_buffered_no_overlap_witness :
    ¬((615 : Int) - 15 < 600 ∧ (540 : Int) < 615 + 30 + 15) :=
  @suggest_buffered_no_overlap ⟨15, 1, 1⟩
    ⟨[⟨1, "X", 1, 30, .NotStarted, none, []⟩], [], [⟨1, none, 540, 600⟩]⟩
    480
    ⟨1, "X", 615, 30, 21,
      "Task priority 1 in project priority 2; first open 30-minute slot honoring business hours and existing commitments."⟩
    (by decide) ⟨1, none, 540, 600⟩ (by decide)

/-- C2: Every suggestion returned by a Suggest call starts on a weekday
(Mon–Fri, encoded 0–4 with the Monday epoch) at or after 09:00 (minute 540
of the day) and ends at or before 17:00 (minute 1020) of the same calendar
day: `suggested_start + duration ≤ dayStart suggested_start + 1020`, so no
suggested slot crosses the end of the business window. -/
theorem suggest_within_business_hours {cfg : Config} {snap : Snapshot}
    {now : Int} {sug : Suggestion} (h : sug ∈ suggest cfg snap now) :
    0 ≤ weekday sug.suggested_start ∧ weekday sug.suggested_start < 5 ∧
      540 ≤ timeOfDay sug.suggested_start ∧
      timeOfDay sug.suggested_start + sug.duration_minutes ≤ 1020 ∧
      sug.suggested_start + sug.duration_minutes ≤
        dayStart sug.suggested_start + 1020 := by
  rcases exists_task_of_mem_suggest h with ⟨t, _, _, _, hdur, hok⟩
  simp only [candidateOK, Bool.and_eq_true, decide_eq_true_eq] at hok
  obtain ⟨⟨⟨⟨_, hwk⟩, h540⟩, h1020⟩, _⟩ := hok
  rw [hdur]
  refine ⟨Int.emod_nonneg _ (by decide), hwk, h540, h1020, ?_⟩
  have hsplit : sug.suggested_start =
      dayStart sug.suggested_start + timeOfDay sug.suggested_start := by
    simp [dayStart, timeOfDay]
  linarith [hsplit, h1020]

/-- Witness for C2 at the spec §8 scenario: the suggested slot at minute 615
(Monday 10:15) lies inside the Monday 09:00–17:00 window. -/
theorem suggest_within_business_hours_witness :
    0 ≤ weekday 615 ∧ weekday 615 < 5 ∧ 540 ≤ timeOfDay 615 ∧
      timeOfDay 615 + 30 ≤ 1020 ∧ (615 : Int) + 30 ≤ dayStart 615 + 1020 :=
  @suggest_within_business_hours ⟨15, 1, 1⟩
    ⟨[⟨1, "X", 1, 30, .NotStarted, none, []⟩], [], [⟨1, none, 540, 600⟩]⟩
    480
    ⟨1, "X", 615, 30, 21,
      "Task priority 1 in project priority 2; first open 30-minute slot honoring business hours and existing commitments."⟩
    (by decide)

/-- C7: A task having any dependency whose status is not Completed is never a
scheduling candidate: no suggestion for it ever appears in the output of a
Suggest call (stated for snapshots with distinct task ids, so that "the task
with that id" is well defined). -/
theorem suggest_dependency_gating {cfg : Config} {snap : Snapshot} {now : Int}
    {t td : Task} {d : Nat}
    (hnodup : (snap.tasks.map Task.id).Nodup)
    (ht : t ∈ snap.tasks) (hd : d ∈ t.dependencies)
    (htd : td ∈ snap.tasks) (hid : td.id = d)
    (hst : td.status ≠ Status.Completed) :
    ∀ sug ∈ suggest cfg snap now, sug.task_id ≠ t.id := by
  intro sug hsug heq
  rcases exists_task_of_mem_suggest hsug with ⟨t', ht', hel, hids, _, _⟩
  have ht'eq : t' = t :=
    List.inj_on_of_nodup_map hnodup ht' ht (by rw [← hids, heq])
  subst ht'eq
  simp only [eligible, Bool.and_eq_true, List.all_eq_true] at hel
  have hdep := hel.2 d hd
  have hex : ∃ u, snap.tasks.find? (fun x => x.id == d) = some u := by
    have hs : (snap.tasks.find? fun x => x.id == d).isSome := by
      rw [List.find?_isSome]
      exact ⟨td, htd, by simp [hid]⟩
    exact Option.isSome_iff_exists.mp hs
  rcases hex with ⟨u, hu⟩
  simp only [hu, decide_eq_true_eq] at hdep
  have humem : u ∈ snap.tasks := List.mem_of_find?_eq_some hu
  have huid : u.id = d := by
    have := List.find?_some hu
    simpa using this
  have hutd : u = td :=
    List.inj_on_of_nodup_map hnodup humem htd (by rw [huid, hid])
  exact hst (hutd ▸ hdep)

/-- Witness for C7: task 1 depends on task 2 (InProgress), task 3 is free of
dependencies; the only suggestion is for task 3, and the theorem rules task 1
out. -/
theorem suggest_dependency_gating_witness :
    (⟨3, "Z", 540, 30, 21,
      "Task priority 1 in project priority 2; first open 30-minute slot honoring business hours and existing commitments."⟩ :
        Suggestion).task_id ≠ 1 :=
  @suggest_dependency_gating ⟨15, 1, 1⟩
    ⟨[⟨1, "X", 1, 30, .NotStarted, none, [2]⟩,
      ⟨2, "Y", 2, 60, .InProgress, none, []⟩,
      ⟨3, "Z", 1, 30, .NotStarted, none, []⟩], [], []⟩
    480
    ⟨1, "X", 1, 30, .NotStarted, none, [2]⟩
    ⟨2, "Y", 2, 60, .InProgress, none, []⟩
    2
    (by decide) (by decide) (by decide) (by decide) (by decide) (by decide)
    _ (by decide)

/-- C8: Suggest is deterministic — two Suggest calls with identical inputs
(the same snapshot, the same `now`, the same configuration) produce identical
ordered suggestion lists; the engine is a pure function of its inputs. -/
theorem suggest_deterministic (cfg₁ cfg₂ : Config) (snap₁ snap₂ : Snapshot)
    (now₁ now₂ : Int) (hc : cfg₁ = cfg₂) (hs : snap₁ = snap₂)
    (hn : now₁ = now₂) :
    suggest cfg₁ snap₁ now₁ = suggest cfg₂ snap₂ now₂ := by
  subst hc
  subst hs
  subst hn
  rfl

/-- Witness for C8 at the spec §8 scenario inputs. -/
theorem suggest_deterministic_witness :
    suggest ⟨15, 1, 1⟩
        ⟨[⟨1, "X", 1, 30, .NotStarted, none, []⟩], [], [⟨1, none, 540, 600⟩]⟩
        480 =
      suggest ⟨15, 1, 1⟩
        ⟨[⟨1, "X", 1, 30, .NotStarted, none, []⟩], [], [⟨1, none, 540, 600⟩]⟩
        480 :=
  suggest_deterministic _ _ _ _ _ _ rfl rfl rfl

/-! ## ApprovalCommitter (modelled from the spec) -/

/-- Spec §7 error kinds relevant to approval. -/
inductive ApproveError where
  | Conflict
deriving DecidableEq

/-- Modelled from the spec: the backend ApprovalCommitter (spec §4.5, §6
Approve, §7 ApprovalConflict) — the Flask handler behind
`/api/schedule/approve` is not under the available source tree, only its
client callers (`showSchedulingSuggestions`, `approveSuggestion` in
`static/app.js`).  The free-check for the suggestion's exact interval is
re-run against the current interval store; if still free a new
CommittedInterval `[start, start + dur)` is inserted, otherwise the call
fails with Conflict and the store is returned unchanged. -/
def approve (ivs : List CommittedInterval) (nextId taskId : Nat)
    (start dur buffer : Int) :
    Except ApproveError CommittedInterval × List CommittedInterval :=
  if isFree ivs buffer start (start + dur) then
    let iv : CommittedInterval :=
      { id := nextId, task_id := some taskId, start := start,
        end_ := start + dur }
    (Except.ok iv, iv :: ivs)
  else
    (Except.error ApproveError.Conflict, ivs)

/-- C3: Every Approve call re-checks the chosen suggestion's exact interval
for freeness against the current CommittedIntervals before committing: when
the interval is no longer free the call fails with an explicit Conflict error
and leaves the interval store unchanged, and conversely a successful commit
can only happen when the free-check passed. -/
theorem approve_conflict_checked :
    ∀ (ivs : List CommittedInterval) (nextId taskId : Nat)
      (start dur buffer : Int),
      (isFree ivs buffer start (start + dur) = false →
        approve ivs nextId taskId start dur buffer =
          (Except.error ApproveError.Conflict, ivs)) ∧
      (∀ iv ivs', approve ivs nextId taskId start dur buffer =
          (Except.ok iv, ivs') →
        isFree ivs buffer start (start + dur) = true) := by
  intro ivs nextId taskId start dur buffer
  constructor
  · intro hfree
    simp [approve, hfree]
  · intro iv ivs' h
    by_cases hfree : isFree ivs buffer start (start + dur) = true
    · exact hfree
    · rw [approve, if_neg hfree] at h
      exact absurd (congrArg Prod.fst h) (by simp)

/-- Witness for C3: approving a 30-minute slot at minute 50 against a store
holding `[0, 100)` conflicts, errors, and commits nothing. -/
theorem approve_conflict_checked_witness :
    approve [⟨7, none, 0, 100⟩] 8 1 50 30 0 =
      (Except.error ApproveError.Conflict, [⟨7, none, 0, 100⟩]) :=
  (approve_conflict_checked [⟨7, none, 0, 100⟩] 8 1 50 30 0).1 (by decide)

/-- The calendar event the client builds in `approveSuggestion`
(static/app.js lines 2437–2459): start time is the suggestion's time, end
time is the suggestion's time plus its duration in minutes
(`moment(suggestedTime)` / `moment(suggestedTime).add(duration, 'minutes')`). -/
structure CalendarEvent where
  title : String
  start_time : Int
  end_time : Int
  task_id : Nat
  project_id : Option Nat
deriving DecidableEq

/-- Translation of the event construction in `approveSuggestion`
(static/app.js lines 2437–2459), with timestamps in minutes. -/
def approveSuggestionEvent (task : Task) (suggestedTime duration : Int) :
    CalendarEvent :=
  { title := task.title
    start_time := suggestedTime
    end_time := suggestedTime + duration
    task_id := task.id
    project_id := task.project_id }

/-- C4: For every approved suggestion `(task_id, suggested_start,
duration_minutes)`, the newly committed calendar interval has start equal to
`suggested_start` and end equal to `suggested_start + duration_minutes`: both
in the engine's commit (ApprovalCommitter model) and in the calendar event
the client's `approveSuggestion` posts. -/
theorem approve_commits_exact_interval :
    (∀ (ivs : List CommittedInterval) (nextId taskId : Nat)
        (start dur buffer : Int) (iv : CommittedInterval)
        (ivs' : List CommittedInterval),
      approve ivs nextId taskId start dur buffer = (Except.ok iv, ivs') →
        iv.start = start ∧ iv.end_ = start + dur ∧
          iv.task_id = some taskId ∧ ivs' = iv :: ivs) ∧
    (∀ (task : Task) (suggestedTime duration : Int),
      (approveSuggestionEvent task suggestedTime duration).start_time =
          suggestedTime ∧
        (approveSuggestionEvent task suggestedTime duration).end_time =
          suggestedTime + duration) := by
  constructor
  · intro ivs nextId taskId start dur buffer iv ivs' h
    by_cases hfree : isFree ivs buffer start (start + dur) = true
    · rw [approve, if_pos hfree] at h
      obtain ⟨h1, h2⟩ := Prod.mk.injEq .. ▸ h
      cases h1
      exact ⟨rfl, rfl, rfl, h2.symm⟩
    · rw [approve, if_neg hfree] at h
      exact absurd (congrArg Prod.fst h) (by simp)
  · intro task suggestedTime duration
    exact ⟨rfl, rfl⟩

/-- Witness for C4: committing task 1 at minute 540 for 30 minutes against an
empty store books exactly `[540, 570)`. -/
theorem approve_commits_exact_interval_witness :
    (540 : Int) = 540 ∧ (570 : Int) = 540 + 30 ∧
      (some 1 : Option Nat) = some 1 ∧
      ([⟨8, some 1, 540, 570⟩] : List CommittedInterval) =
        ⟨8, some 1, 540, 570⟩ :: [] :=
  approve_commits_exact_interval.1 [] 8 1 540 30 15 ⟨8, some 1, 540, 570⟩
    [⟨8, some 1, 540, 570⟩] rfl

/-! ## Client-side priority rendering (static/app.js, static/index.html) -/

/-- Translation of `getPriorityClass` (static/app.js lines 945–951 and
2567–2573, both definitions identical): the object lookup
`{1:'bg-danger',2:'bg-warning',3:'bg-info'}[priority] || 'bg-secondary'`. -/
def getPriorityClass (priority : Nat) : String :=
  if priority = 1 then "bg-danger"
  else if priority = 2 then "bg-warning"
  else if priority = 3 then "bg-info"
  else "bg-secondary"

/-- The `priorities` array of `getPriorityOptionsHtml` (static/app.js lines
2978–2983): `[{value:1,label:'Low'},{value:2,label:'Medium'},{value:3,label:'High'}]`. -/
def priorityOptions : List (Nat × String) :=
  [(1, "Low"), (2, "Medium"), (3, "High")]

/-- The label `getPriorityOptionsHtml` renders for a given priority value. -/
def priorityOptionLabel (v : Nat) : Option String :=
  (priorityOptions.find? fun p => p.1 == v).map Prod.snd

/-- The priority `<select>` options hard-coded in static/index.html (the
`projectPriority`, `taskPriority` and `editTaskPriority` selects, all
identical): `1 = High, 2 = Medium, 3 = Low`. -/
def indexHtmlPriorityOptions : List (Nat × String) :=
  [(1, "High"), (2, "Medium"), (3, "Low")]

/-- The label the index.html selects render for a given priority value. -/
def indexHtmlPriorityLabel (v : Nat) : Option String :=
  (indexHtmlPriorityOptions.find? fun p => p.1 == v).map Prod.snd

/-- C5 (failing input): the program does not use one priority encoding.
`getPriorityOptionsHtml` labels value 1 "Low" and value 3 "High", while the
index.html selects label 1 "High" and 3 "Low", and `getPriorityClass` styles
1 as `bg-danger` (its High/danger class) and 3 as `bg-info` (its Low class);
so the two rendering functions disagree at priority 1 (and 3), contradicting
the documented encoding 1=High, 2=Medium, 3=Low. -/
theorem priority_label_functions_disagree :
    priorityOptionLabel 1 = some "Low" ∧ priorityOptionLabel 3 = some "High" ∧
      indexHtmlPriorityLabel 1 = some "High" ∧
      indexHtmlPriorityLabel 3 = some "Low" ∧
      getPriorityClass 1 = "bg-danger" ∧ getPriorityClass 3 = "bg-info" ∧
      priorityOptionLabel 1 ≠ indexHtmlPriorityLabel 1 := by
  decide

/-! ## Client-side handling of an empty suggestion list (static/app.js) -/

/-- The observable outcome of a client suggestion-fetch handler. -/
inductive FetchOutcome where
  | errorToast
  | infoNotice
  | renderSuggestions (n : Nat)
deriving DecidableEq

/-- The suggestion records the client reads off the Suggest responses. -/
structure ClientSuggestion where
  task_id : Nat
  task_title : String
  suggested_time : Int
  duration : Int
deriving DecidableEq

/-- Translation of the response handling of `generateSchedule`
(static/app.js lines 2372–2422): a failed fetch throws into the catch-branch
(error toast); an empty suggestions array shows the informational
"No scheduling suggestions available at this time." notice and returns; a
non-empty array renders one card per suggestion.  `none` models
`!response.ok`. -/
def generateScheduleOutcome :
    Option (List ClientSuggestion) → FetchOutcome
  | none => FetchOutcome.errorToast
  | some suggestions =>
      if suggestions.length = 0 then FetchOutcome.infoNotice
      else FetchOutcome.renderSuggestions suggestions.length

/-- Translation of the response handling of the schedule-button click handler
in `addScheduleButton` (static/app.js lines 487–500): a failed fetch throws
into the catch-branch (error toast); `data.suggestions && data.suggestions.length > 0`
opens the suggestions modal, otherwise an informational toast is shown.  The
outer `none` models `!response.ok`, the inner `none` a missing
`data.suggestions` field. -/
def scheduleButtonOutcome :
    Option (Option (List ClientSuggestion)) → FetchOutcome
  | none => FetchOutcome.errorToast
  | some none => FetchOutcome.infoNotice
  | some (some suggestions) =>
      if 0 < suggestions.length then
        FetchOutcome.renderSuggestions suggestions.length
      else FetchOutcome.infoNotice

/-- C6: An empty suggestion list is a valid Suggest output and is never
treated as an error — on an empty suggestions array both client handlers
(`generateSchedule` and the `addScheduleButton` click handler) display an
informational notice, which is distinct from their error-handling outcome. -/
theorem empty_suggestions_not_error :
    generateScheduleOutcome (some []) = FetchOutcome.infoNotice ∧
      scheduleButtonOutcome (some (some [])) = FetchOutcome.infoNotice ∧
      FetchOutcome.infoNotice ≠ FetchOutcome.errorToast := by
  decide

/-! ## Client-side project colors (static/app.js) -/

/-- Translation of the effective (last-defined) `getProjectColor`
(static/app.js lines 3092–3095): `projects.find(p => p.id === projectId)`
followed by `project ? project.color : '#6c757d'`.  It shadows the earlier
definition at lines 2712–2717, which lazily mutated the global
`projectColors` table; this one only reads the loaded `projects` array, so it
is embedded as a pure function of that array. -/
def getProjectColor (projects : List Project) (projectId : Nat) : String :=
  match projects.find? fun p => p.id == projectId with
  | some p => p.color
  | none => "#6c757d"

/-- C9: the effective `getProjectColor` is a pure lookup — on snapshots with
distinct project ids it returns the `color` field of the project whose id
matches, and it returns `'#6c757d'` when no project matches. -/
theorem getProjectColor_lookup :
    ∀ (projects : List Project) (projectId : Nat),
      (∀ p ∈ projects, p.id = projectId →
        (projects.map Project.id).Nodup →
          getProjectColor projects projectId = p.color) ∧
      ((∀ p ∈ projects, p.id ≠ projectId) →
        getProjectColor projects projectId = "#6c757d") := by
  intro projects projectId
  constructor
  · intro p hp hpid hnodup
    have hex : ∃ u, projects.find? (fun x => x.id == projectId) = some u := by
      have hs : (projects.find? fun x => x.id == projectId).isSome := by
        rw [List.find?_isSome]
        exact ⟨p, hp, by simp [hpid]⟩
      exact Option.isSome_iff_exists.mp hs
    rcases hex with ⟨u, hu⟩
    have humem : u ∈ projects := List.mem_of_find?_eq_some hu
    have huid : u.id = projectId := by
      have := List.find?_some hu
      simpa using this
    have hup : u = p :=
      List.inj_on_of_nodup_map hnodup humem hp (by rw [huid, hpid])
    rw [getProjectColor, hu, hup]
  · intro hnone
    have hfind : projects.find? (fun x => x.id == projectId) = none := by
      rw [List.find?_eq_none]
      intro p hp
      simpa using hnone p hp
    rw [getProjectColor, hfind]

/-- Witness for C9: a matching project yields its color, a missing id yields
the gray default. -/
theorem getProjectColor_lookup_witness :
    getProjectColor [⟨1, "P", 1, "#FF6B6B"⟩] 1 = "#FF6B6B" ∧
      getProjectColor [⟨1, "P", 1, "#FF6B6B"⟩] 2 = "#6c757d" :=
  ⟨(getProjectColor_lookup [⟨1, "P", 1, "#FF6B6B"⟩] 1).1 ⟨1, "P", 1, "#FF6B6B"⟩
      (by decide) rfl (by decide),
    (getProjectColor_lookup [⟨1, "P", 1, "#FF6B6B"⟩] 2).2 (by decide)⟩

/-! ## Client-side random color generation (static/app.js) -/

/-- Translation of the effective (last-defined) `hexToRgb` (static/app.js
lines 2675–2686): on the numeric value `n` of the six-digit hex string,
`r = (n >> 16) & 255`, `g = (n >> 8) & 255`, `b = n & 255`. -/
def hexToRgb (n : Nat) : Nat × Nat × Nat :=
  (n / 65536 % 256, n / 256 % 256, n % 256)

/-- Translation of the effective (last-defined) `isColorTooDark`
(static/app.js lines 2705–2710): `(0.299*r + 0.587*g + 0.114*b) / 255 < 128`.
JavaScript computes in binary floating point; the value lies in `[0, 1]` and
the threshold is 128, so the comparison's outcome is independent of rounding
and is modelled exactly with rationals. -/
def isColorTooDark (n : Nat) : Bool :=
  let rgb := hexToRgb n
  decide ((0.299 * (rgb.1 : ℚ) + 0.587 * (rgb.2.1 : ℚ) +
    0.114 * (rgb.2.2 : ℚ)) / 255 < 128)

/-- Translation of the effective `isColorTooSimilarToExisting` (static/app.js
lines 2689–2702); `sqrt(d) < 100` with `d ≥ 0` is written as `d < 100²`. -/
def isColorTooSimilarToExisting (existing : List Nat) (c : Nat) : Bool :=
  existing.any fun e =>
    let er := hexToRgb e
    let nr := hexToRgb c
    decide (((er.1 : Int) - nr.1) ^ 2 + ((er.2.1 : Int) - nr.2.1) ^ 2 +
      ((er.2.2 : Int) - nr.2.2) ^ 2 < 10000)

/-- The effective `baseColors` array (static/app.js lines 2631–2634), as the
numeric values of its hex strings. -/
def baseColors : List Nat :=
  [0xFF6B6B, 0x4ECDC4, 0x45B7D1, 0x96CEB4, 0xFFEEAD,
   0xD4A5A5, 0x9A9EAB, 0xA8E6CE, 0xDCEDC2, 0xFFD3B5]

/-- Translation of the `do … while ((isColorTooSimilarToExisting(c) ||
isColorTooDark(c)) && attempts < maxAttempts)` retry loop of the effective
`generateUniqueColor` (static/app.js lines 2649–2659).  `gen i` is the color
`generateRandomColor()` returns on the `i`-th iteration (0-based), `i + 1`
the value of `attempts` after that iteration; `fuel` is `maxAttempts - i`,
so the top-level call uses `fuel = maxAttempts`. -/
def generateUniqueColorLoop (existing : List Nat) (gen : Nat → Nat)
    (maxAttempts : Nat) : Nat → Nat → Nat
  | 0, i => gen i
  | fuel + 1, i =>
      let c := gen i
      if (isColorTooSimilarToExisting existing c || isColorTooDark c) &&
          decide (i + 1 < maxAttempts) then
        generateUniqueColorLoop existing gen maxAttempts fuel (i + 1)
      else c

/-- Translation of the effective `generateUniqueColor` (static/app.js lines
2637–2662): an unused base color is picked first (`pick` models the random
index); once every base color is in use, the random-retry loop runs with
`maxAttempts = 50`. -/
def generateUniqueColor (existingColors : List Nat) (gen : Nat → Nat)
    (pick : Nat) : Nat :=
  let unused := baseColors.filter fun c => !(existingColors.contains c)
  if 0 < unused.length then unused.getD (pick % unused.length) 0
  else generateUniqueColorLoop existingColors gen 50 50 0

theorem isColorTooDark_true (n : Nat) : isColorTooDark n = true := by
  rw [isColorTooDark]
  simp only [decide_eq_true_eq]
  have hr : ((n / 65536 % 256 : Nat) : ℚ) ≤ 255 := by
    exact_mod_cast Nat.le_of_lt_succ (Nat.mod_lt _ (by norm_num))
  have hg : ((n / 256 % 256 : Nat) : ℚ) ≤ 255 := by
    exact_mod_cast Nat.le_of_lt_succ (Nat.mod_lt _ (by norm_num))
  have hb : ((n % 256 : Nat) : ℚ) ≤ 255 := by
    exact_mod_cast Nat.le_of_lt_succ (Nat.mod_lt _ (by norm_num))
  rw [div_lt_iff₀ (by norm_num : (0 : ℚ) < 255)]
  simp only [hexToRgb]
  nlinarith [hr, hg, hb]

/-- The retry loop never stops early: with fuel matching the remaining
attempt budget it consumes the whole budget. -/
theorem generateUniqueColorLoop_exhausts (existing : List Nat)
    (gen : Nat → Nat) :
    ∀ fuel i : Nat, i + fuel = 50 → 1 ≤ fuel →
      generateUniqueColorLoop existing gen 50 fuel i = gen 49 := by
  intro fuel
  induction fuel with
  | zero => intro i _ h1; exact absurd h1 (by norm_num)
  | succ f ih =>
    intro i hsum _
    rw [generateUniqueColorLoop]
    simp only [isColorTooDark_true, Bool.or_true, Bool.true_and]
    match f, ih with
    | 0, _ =>
      have hi : i = 49 := by omega
      subst hi
      simp
    | f' + 1, ih =>
      have hlt : i + 1 < 50 := by omega
      rw [if_pos (by simpa using hlt)]
      exact ih (i + 1) (by omega) (by omega)

/-- C10: the effective `isColorTooDark` returns true for every color (its
brightness lies in `[0, 1]` yet is compared against 128), and consequently,
once all base colors are in use, `generateUniqueColor`'s random-retry loop
never accepts a generated color via the darkness test before reaching
`maxAttempts`: it always runs all 50 attempts and returns the 50th
(index 49) generated color. -/
theorem isColorTooDark_always_true_loop_exhausts :
    (∀ n : Nat, isColorTooDark n = true) ∧
      ∀ (existing : List Nat) (gen : Nat → Nat) (pick : Nat),
        baseColors.all (fun c => existing.contains c) = true →
          generateUniqueColor existing gen pick = gen 49 := by
  refine ⟨isColorTooDark_true, ?_⟩
  intro existing gen pick hall
  rw [generateUniqueColor]
  have hnil : (baseColors.filter fun c => !(existing.contains c)) = [] := by
    rw [List.filter_eq_nil_iff]
    intro c hc
    have hc' := (List.all_eq_true.mp hall) c hc
    simp [List.mem_of_elem_eq_true hc']
  rw [hnil]
  simp only [List.length_nil, lt_self_iff_false, if_false]
  exact generateUniqueColorLoop_exhausts existing gen 50 0 rfl (by norm_num)

/-- Witness for C10's loop clause: with every base color already in use, the
generator returns the 50th random color (here `gen = id`, so 49). -/
theorem isColorTooDark_always_true_loop_exhausts_witness :
    generateUniqueColor baseColors (fun i => i) 0 = 49 :=
  isColorTooDark_always_true_loop_exhausts.2 baseColors (fun i => i) 0
    (by decide)

end SmartSchedular
